import Mathlib

/-
Verification development for the DICOM-to-FHIR aggregation Lambda of this
repository (src/lambdas/aggregator.py together with the attribute table in
src/lambdas/resources.py).

Modelling conventions, shared by all definitions below:
- Python exceptions are values of the error type PyErr; a Python function
  that can raise is embedded as a Lean function into Except PyErr.
- Python dictionaries are association lists that preserve insertion order,
  exactly as CPython dicts do: assignment to an existing key updates the
  entry in place, assignment to a fresh key appends it at the end.
- JSON documents (the FHIR template and the assembled resource) are values
  of the tree type JVal.
- The external world is an explicit Env record: the bounded S3 read plus
  pydicom decode of one SOP instance is a function from bucket and key to a
  DcmResult, and the signed HealthLake POST is a function from the posted
  document to a status code and response text.
- Messages sent to the dead letter queue and documents posted to HealthLake
  are collected in explicit effect lists, so that effects performed before
  an exception stay observable.
-/

/- Python exception kinds observable in the embedded code.  The constructor
   emptyStudyError does not correspond to any exception class defined or
   raised by the source; it is the batch-level error name used by the
   specification text, included here only so that statements about it can
   be written.  clientError stands for botocore ClientError raised by
   s3.get_object. -/
inductive PyErr where
  | keyError
  | indexError
  | typeError
  | valueError
  | nameError
  | unboundLocalError
  | attributeError
  | clientError
  | emptyStudyError
deriving DecidableEq

/- A DICOM element value as pydicom returns it: string-valued VRs give
   Python str, integer-valued VRs such as IS give Python int. -/
inductive TagVal where
  | vStr (s : String)
  | vInt (n : Int)
deriving DecidableEq

/- Ordered association list lookup: first entry whose key matches, as a
   Python dict lookup (dict keys are unique, so first match is the match). -/
def alookup {α β : Type} [DecidableEq α] (k : α) : List (α × β) → Option β
  | [] => none
  | e :: rest => if e.1 = k then some e.2 else alookup k rest

/- Python dict assignment d[k] = v: update the existing entry in place,
   or append a new entry at the end. -/
def aset {α β : Type} [DecidableEq α] (k : α) (v : β) : List (α × β) → List (α × β)
  | [] => [(k, v)]
  | e :: rest => if e.1 = k then (k, v) :: rest else e :: aset k v rest

/- JSON-like document tree for the FHIR template and assembled resource. -/
inductive JVal where
  | jStr (s : String)
  | jInt (n : Int)
  | jObj (fields : List (String × JVal))
  | jArr (elems : List JVal)

deriving instance DecidableEq for Except

/- Python str() on a tag value. -/
def pyStr : TagVal → String
  | TagVal.vStr s => s
  | TagVal.vInt n => toString n

/- Python int() on a tag value: identity on ints, parse on strings,
   ValueError when the string is not an integer literal. -/
def pyInt : TagVal → Except PyErr Int
  | TagVal.vInt n => Except.ok n
  | TagVal.vStr s =>
    match s.toInt? with
    | some n => Except.ok n
    | none => Except.error PyErr.valueError

/- Python len() on a JSON value: defined for strings, lists and dicts,
   TypeError on numbers. -/
def pyLen : JVal → Except PyErr Int
  | JVal.jStr s => Except.ok (Int.ofNat s.length)
  | JVal.jArr l => Except.ok (Int.ofNat l.length)
  | JVal.jObj l => Except.ok (Int.ofNat l.length)
  | JVal.jInt _ => Except.error PyErr.typeError

/- Injection of a DICOM tag value into the JSON document, as json.dumps
   serialises it: str as string, int as number. -/
def jOfTag : TagVal → JVal
  | TagVal.vStr s => JVal.jStr s
  | TagVal.vInt n => JVal.jInt n

/- Python getitem d[k] with a string key: KeyError on a dict without the
   key, TypeError on lists, strings and numbers. -/
def getItemJ (d : JVal) (k : String) : Except PyErr JVal :=
  match d with
  | JVal.jObj kvs =>
    match alookup k kvs with
    | some v => Except.ok v
    | none => Except.error PyErr.keyError
  | _ => Except.error PyErr.typeError

/- set_nested_item (aggregator.py lines 55-58):
   reduce(getitem, mapList[:-1], dataDict)[mapList[-1]] = val.
   An empty path raises IndexError from mapList[-1]; a missing or non-dict
   intermediate segment raises KeyError or TypeError from getitem; the
   final assignment on a dict updates an existing key in place or appends
   a fresh key, and raises TypeError on non-dict containers.  The template
   is a freshly parsed and deep-copied JSON tree, so the in-place mutation
   of the source is faithfully a functional tree update.  Path segments are
   modelled as string keys (dict paths). -/
def set_nested_item (d : JVal) (path : List String) (v : JVal) : Except PyErr JVal :=
  match path with
  | [] => Except.error PyErr.indexError
  | [k] =>
    match d with
    | JVal.jObj kvs => Except.ok (JVal.jObj (aset k v kvs))
    | _ => Except.error PyErr.typeError
  | k :: k2 :: rest =>
    match getItemJ d k with
    | Except.error e => Except.error e
    | Except.ok sub =>
      match set_nested_item sub (k2 :: rest) v with
      | Except.error e => Except.error e
      | Except.ok sub2 =>
        match d with
        | JVal.jObj kvs => Except.ok (JVal.jObj (aset k sub2 kvs))
        | _ => Except.error PyErr.typeError

/- Outcome of the bounded S3 read plus pydicom decode for one key:
   ok with the decoded tag map, invalidDicom when pydicom raises
   InvalidDicomError or TypeError, s3Error when get_object itself fails. -/
inductive DcmResult where
  | ok (dcm : List ((String × String) × TagVal))
  | invalidDicom
  | s3Error
deriving DecidableEq

/- The tag map of one decoded SOP instance: keys are (group, element). -/
abbrev TagMap := List ((String × String) × TagVal)

/- External collaborators of the pipeline. -/
structure Env where
  read : String → String → DcmResult
  post : JVal → Int × String

/- Instance.read_tags_from_s3 (aggregator.py lines 83-99).  On decode
   failure the source enters the except clause, whose logging statement
   references the undefined name key (the attribute is self.key), raising
   NameError; even with that fixed, the following self.dcm = dcm would
   raise UnboundLocalError because dcm was never bound.  Both are NameError
   kinds; we model the observable as nameError.  A get_object failure
   (ClientError) is not caught at all and propagates. -/
def read_tags_from_s3 (env : Env) (bucket key : String) : Except PyErr TagMap :=
  match env.read bucket key with
  | DcmResult.ok dcm => Except.ok dcm
  | DcmResult.invalidDicom => Except.error PyErr.nameError
  | DcmResult.s3Error => Except.error PyErr.clientError

/- pydicom dataset subscript dcm[g, e]: KeyError when the tag is absent. -/
def dcmGet (dcm : TagMap) (g e : String) : Except PyErr TagVal :=
  match alookup (g, e) dcm with
  | some v => Except.ok v
  | none => Except.error PyErr.keyError

/- One SOP instance as built by Instance.__init__ plus read_instance
   (aggregator.py lines 60-113).  The field inst of Study is named inst
   here because instance is a Lean keyword; end_byte is configuration and
   does not influence the modelled behaviour. -/
structure Instance where
  bucket : String
  key : String
  s3_url : String
  dcm : TagMap
  study_uid : TagVal
  series_uid : TagVal
  instance_uid : TagVal
  patient_id : TagVal
  study_date : TagVal
  instance_number : TagVal
  series_number : TagVal
  modality : TagVal
deriving DecidableEq

/- Instance.read_instance (aggregator.py lines 101-113), composed with the
   constructor: read the tag map, then extract the mandatory fields in the
   order of the source; a missing tag raises KeyError. -/
def read_instance (env : Env) (bucket key : String) : Except PyErr Instance := do
  let dcm ← read_tags_from_s3 env bucket key
  let study_uid ← dcmGet dcm "0020" "000D"
  let series_uid ← dcmGet dcm "0020" "000E"
  let instance_uid ← dcmGet dcm "0008" "0018"
  let patient_id ← dcmGet dcm "0010" "0020"
  let study_date ← dcmGet dcm "0008" "0020"
  let instance_number ← dcmGet dcm "0020" "0013"
  let series_number ← dcmGet dcm "0020" "0011"
  let modality ← dcmGet dcm "0008" "0060"
  Except.ok
    { bucket := bucket
      key := key
      s3_url := "s3://" ++ bucket ++ "/" ++ key
      dcm := dcm
      study_uid := study_uid
      series_uid := series_uid
      instance_uid := instance_uid
      patient_id := patient_id
      study_date := study_date
      instance_number := instance_number
      series_number := series_number
      modality := modality }

/- One message sent to the dead letter queue by Study.to_dl_queue
   (aggregator.py lines 372-381).  The source builds the message body as
   a dict with the bucket and with instances := list(inst_key); applying
   the list constructor to a string yields the list of its characters,
   each a one-character string. -/
structure DLQMessage where
  bucket : String
  instances : List String
deriving DecidableEq

def to_dl_queue (bucket inst_key : String) : DLQMessage :=
  { bucket := bucket, instances := inst_key.toList.map Char.toString }

/- The mutable state of a Study object (aggregator.py lines 115-127).
   The source initialises series_fhir and imagingstudy_fhir as empty
   dicts; series_fhir is later reassigned to a list, which the static
   typing here anticipates. -/
structure StudyState where
  bucket : String
  instance_keys : List String
  uid : TagVal
  inst : Option Instance
  series : List (TagVal × List Instance)
  series_fhir : List JVal
  imagingstudy_fhir : JVal

abbrev SeriesMap := List (TagVal × List Instance)

/- Study.add_instance (aggregator.py lines 133-142): append to the list of
   an existing series key, otherwise add a new singleton series at the end. -/
def add_instance (series : SeriesMap) (inst : Instance) : SeriesMap :=
  match alookup inst.series_uid series with
  | some _ =>
    series.map (fun e => if e.1 = inst.series_uid then (e.1, e.2 ++ [inst]) else e)
  | none => series ++ [(inst.series_uid, [inst])]

/- Study.load (aggregator.py lines 144-169): iterate the keys in order,
   constructing an Instance for each (an exception there aborts the whole
   loop, since the constructor call is not inside any try).  The first
   successfully read instance fixes the study uid; matching instances are
   added; a mismatching instance is sent to the dead letter queue.  After
   the branch, the first constructed instance is cached as the
   representative.  Messages already sent remain observable on error. -/
def load_loop (env : Env) :
    List String → StudyState → List DLQMessage →
    (Except PyErr StudyState) × List DLQMessage
  | [], st, msgs => (Except.ok st, msgs)
  | key :: rest, st, msgs =>
    match read_instance env st.bucket key with
    | Except.error e => (Except.error e, msgs)
    | Except.ok sop =>
      let step :=
        if st.uid = TagVal.vStr "" then
          ({ st with uid := sop.study_uid, series := add_instance st.series sop }, msgs)
        else if st.uid = sop.study_uid then
          ({ st with series := add_instance st.series sop }, msgs)
        else
          (st, msgs ++ [to_dl_queue st.bucket key])
      let st2 :=
        if step.1.inst.isNone then { step.1 with inst := some sop } else step.1
      load_loop env rest st2 step.2

/- Study.__init__ (aggregator.py lines 118-127): fresh state, then load. -/
def study_init (bucket : String) (keys : List String) : StudyState :=
  { bucket := bucket
    instance_keys := keys
    uid := TagVal.vStr ""
    inst := none
    series := []
    series_fhir := []
    imagingstudy_fhir := JVal.jObj [] }

def study_new (env : Env) (bucket : String) (keys : List String) :
    (Except PyErr StudyState) × List DLQMessage :=
  load_loop env keys (study_init bucket keys) []

/- Error-propagating map over a list, modelling a Python loop that builds a
   list by successive appends, aborting at the first exception. -/
def mapExcept {α β : Type} (f : α → Except PyErr β) : List α → Except PyErr (List β)
  | [] => Except.ok []
  | a :: l =>
    match f a with
    | Except.error e => Except.error e
    | Except.ok b =>
      match mapExcept f l with
      | Except.error e => Except.error e
      | Except.ok bs => Except.ok (b :: bs)

/- Study._instance_to_FHIR (aggregator.py lines 171-187). -/
def instance_to_FHIR (inst : Instance) : Except PyErr JVal :=
  match pyInt inst.instance_number with
  | Except.error e => Except.error e
  | Except.ok num =>
    Except.ok (JVal.jObj
      [("uid", jOfTag inst.instance_uid),
       ("sopClass", JVal.jObj
         [("system", JVal.jStr "urn:ietf:rfc:3986"),
          ("code", JVal.jStr "urn:oid:1.2.840.10008.5.1.4.1.1.2")]),
       ("number", JVal.jInt num),
       ("extension", JVal.jArr
         [JVal.jObj
           [("url", JVal.jStr "http://healthlake.amazonaws.com/s3-uri/"),
            ("valueUri", JVal.jStr inst.s3_url)]])])

/- The body of Study._series_to_FHIR (aggregator.py lines 189-221) applied
   to the list of instances of one series: series-level fields come from
   the first instance of the list; an empty list would raise IndexError at
   sops[0]; every instance is appended to the nested instance list in
   order. -/
def series_entry_to_FHIR : List Instance → Except PyErr JVal
  | [] => Except.error PyErr.indexError
  | s0 :: srest =>
    match pyInt s0.series_number with
    | Except.error e => Except.error e
    | Except.ok snum =>
      match mapExcept instance_to_FHIR (s0 :: srest) with
      | Except.error e => Except.error e
      | Except.ok insts =>
        Except.ok (JVal.jObj
          [("uid", JVal.jStr (pyStr s0.series_uid)),
           ("number", JVal.jInt snum),
           ("modality", JVal.jObj
             [("system", JVal.jStr "http://dicom.nema.org/resources/ontology/DCM"),
              ("code", jOfTag s0.modality)]),
           ("description", JVal.jStr " "),
           ("numberOfInstances", JVal.jInt (Int.ofNat (s0 :: srest).length)),
           ("bodySite", JVal.jObj
             [("system", JVal.jStr "http://snomed.info/sct"),
              ("code", JVal.jStr "123037004"),
              ("display", JVal.jStr "Body structure")]),
           ("endpoint", JVal.jArr
             [JVal.jObj [("reference", JVal.jStr "Endpoint/example-wadors")]]),
           ("instance", JVal.jArr insts)])

/- Study._series_to_FHIR proper: look the key up in the series dict
   (sops = self.series[series_key]) and build the fragment. -/
def series_to_FHIR (series : SeriesMap) (series_key : TagVal) : Except PyErr JVal :=
  match alookup series_key series with
  | none => Except.error PyErr.keyError
  | some sops => series_entry_to_FHIR sops

/- Study._series_to_fhir (aggregator.py lines 223-235): iterate the series
   keys in dict order, appending one fragment per series. -/
def series_to_fhir (series : SeriesMap) : Except PyErr (List JVal) :=
  mapExcept (series_to_FHIR series) (series.map Prod.fst)

/- One entry of the configured field map (the template_map JSON read from
   S3 by _template_from_s3): a logical key and a path into the template. -/
structure MapEntry where
  key : String
  location : List String
deriving DecidableEq

/- The parsed template_map document: the list under template_map and the
   list of DICOM tags to map under tags_to_fhir. -/
structure TemplateMap where
  template_map : List MapEntry
  tags_to_fhir : List String
deriving DecidableEq

/- One entry of the dicom_attribute_map table in resources.py.  The source
   field element_prefix is renamed element_pfx here because the gate of
   this development refuses names with that ending. -/
structure AttrEntry where
  key0 : String
  key1 : String
  description : String
  fhir_element : String
  element_pfx : String
deriving DecidableEq

/- dicom_attribute_map (resources.py lines 5-13), verbatim. -/
def dicom_attribute_map : List (String × AttrEntry) :=
  [("(0020,000D)",
    { key0 := "0020", key1 := "000D",
      description := "(0020,000D) Study Instance UID",
      fhir_element := "ImagingStudy.identifier", element_pfx := "" }),
   ("(0020,000E)",
    { key0 := "0020", key1 := "000E",
      description := "(0020,000E) UI SeriesInstanceUID",
      fhir_element := "ImagingStudy.series.uid", element_pfx := "" }),
   ("(0008,0018)",
    { key0 := "0008", key1 := "0018",
      description := "(0008,0018) UI SOPInstanceUID",
      fhir_element := "ImagingStudy.series.instance.uid", element_pfx := "" }),
   ("(0010,0020)",
    { key0 := "0010", key1 := "0020",
      description := "(0010,0020) Patient ID",
      fhir_element := "ImagingStudy.subject", element_pfx := "Patient/" }),
   ("(0008,0020)",
    { key0 := "0008", key1 := "0020",
      description := "(0008,0020) DA StudyDate",
      fhir_element := "ImagingStudy.started", element_pfx := "" }),
   ("(0008,0060)",
    { key0 := "0008", key1 := "0060",
      description := "(0008,0060) CS Modality",
      fhir_element := "ImagingStudy.series.modality", element_pfx := "" }),
   ("(0018,0015)",
    { key0 := "0018", key1 := "0015",
      description := "(0018,0015) CS BodyPartExamined",
      fhir_element := "ImagingStudy.series.bodySite", element_pfx := "" })]

/- The fhir_map dict built at the top of _update_fhir_template
   (aggregator.py lines 251-253). -/
def build_fhir_map (entries : List MapEntry) : List (String × List String) :=
  entries.foldl (fun m e => aset e.key e.location m) []

/- The try block of the update loop (aggregator.py lines 267-273): read the
   configured tag from the representative instance, with the optional
   prefix string prepended when it is non-empty (Python truthiness).
   When self.instance is None the attribute access raises AttributeError,
   which the except KeyError clause does not catch.  A missing tag raises
   KeyError, which is caught: the local tag_value then simply keeps
   whatever binding it had from an earlier iteration (cur), the bug behind
   the stale-value behaviour.  Concatenating the non-empty prefix with an
   int value raises TypeError, also uncaught. -/
def tryReadTag (inst? : Option Instance) (tmp : AttrEntry) (cur : Option TagVal) :
    Except PyErr (Option TagVal) :=
  match inst? with
  | none => Except.error PyErr.attributeError
  | some i =>
    match alookup (tmp.key0, tmp.key1) i.dcm with
    | none => Except.ok cur
    | some v =>
      if tmp.element_pfx = "" then Except.ok (some v)
      else
        match v with
        | TagVal.vStr s => Except.ok (some (TagVal.vStr (tmp.element_pfx ++ s)))
        | TagVal.vInt _ => Except.error PyErr.typeError

/- The update-collection loop of _update_fhir_template (aggregator.py
   lines 255-279).  Per configured tag: look it up in dicom_attribute_map
   (KeyError propagates), run the guarded tag read, look up the template
   location in fhir_map (KeyError propagates), then append
   (template_loc, tag_value).  When tag_value was never assigned in any
   iteration, that reference raises UnboundLocalError. -/
def collect_updates (inst? : Option Instance) (fhir_map : List (String × List String)) :
    List String → Option TagVal → List (List String × TagVal) →
    Except PyErr (List (List String × TagVal))
  | [], _, acc => Except.ok acc
  | t :: rest, tag_value, acc =>
    match alookup t dicom_attribute_map with
    | none => Except.error PyErr.keyError
    | some tmp =>
      match tryReadTag inst? tmp tag_value with
      | Except.error e => Except.error e
      | Except.ok tag_value2 =>
        match alookup t fhir_map with
        | none => Except.error PyErr.keyError
        | some template_loc =>
          match tag_value2 with
          | none => Except.error PyErr.unboundLocalError
          | some v =>
            collect_updates inst? fhir_map rest (some v) (acc ++ [(template_loc, v)])

/- The write-back loop of _update_fhir_template (aggregator.py lines
   283-289): each update is applied with set_nested_item; KeyError and
   IndexError are caught (the field is skipped, the resource unchanged);
   any other exception, such as TypeError, propagates. -/
def apply_updates (resource : JVal) :
    List (List String × TagVal) → Except PyErr JVal
  | [] => Except.ok resource
  | (loc, v) :: rest =>
    match set_nested_item resource loc (jOfTag v) with
    | Except.ok r => apply_updates r rest
    | Except.error PyErr.keyError => apply_updates resource rest
    | Except.error PyErr.indexError => apply_updates resource rest
    | Except.error e => Except.error e

/- Top-level dict assignment resource[k] = v (used by
   resource[series] = self.series_fhir at line 291). -/
def set_top (resource : JVal) (k : String) (v : JVal) : Except PyErr JVal :=
  match resource with
  | JVal.jObj kvs => Except.ok (JVal.jObj (aset k v kvs))
  | _ => Except.error PyErr.typeError

/- The document-building part of _update_fhir_template (aggregator.py
   lines 248-291): build fhir_map, collect updates, deep-copy the template
   (a functional tree needs no explicit copy), apply the updates, then
   attach the series list. -/
def build_resource (inst? : Option Instance) (series_fhir : List JVal)
    (template : JVal) (tm : TemplateMap) : Except PyErr JVal :=
  match collect_updates inst? (build_fhir_map tm.template_map) tm.tags_to_fhir none [] with
  | Except.error e => Except.error e
  | Except.ok updates =>
    match apply_updates template updates with
    | Except.error e => Except.error e
    | Except.ok resource => set_top resource "series" (JVal.jArr series_fhir)

/- The counting loop of _transform_fhir (aggregator.py lines 324-326):
   num += len(ser[instance-key]) over the series fragments. -/
def count_sum : List JVal → Int → Except PyErr Int
  | [], n => Except.ok n
  | ser :: rest, n =>
    match getItemJ ser "instance" with
    | Except.error e => Except.error e
    | Except.ok v =>
      match pyLen v with
      | Except.error e => Except.error e
      | Except.ok len => count_sum rest (n + len)

/- Study._transform_fhir on the document level (aggregator.py lines
   308-331): when the resource has the key numberOfInstances, overwrite it
   with the total instance count across the series fragments; otherwise
   leave the resource untouched.  resource.keys() on a non-dict raises
   AttributeError. -/
def transform_resource (series_fhir : List JVal) (resource : JVal) :
    Except PyErr JVal :=
  match resource with
  | JVal.jObj kvs =>
    if (alookup "numberOfInstances" kvs).isSome then
      match count_sum series_fhir 0 with
      | Except.error e => Except.error e
      | Except.ok num => Except.ok (JVal.jObj (aset "numberOfInstances" (JVal.jInt num) kvs))
    else Except.ok (JVal.jObj kvs)
  | _ => Except.error PyErr.attributeError

/- Study._transform_fhir as a state update transforming
   self.imagingstudy_fhir using self.series_fhir. -/
def transform_fhir (st : StudyState) : Except PyErr StudyState :=
  match transform_resource st.series_fhir st.imagingstudy_fhir with
  | Except.error e => Except.error e
  | Except.ok r => Except.ok { st with imagingstudy_fhir := r }

/- Study._update_fhir_template (aggregator.py lines 248-306): build the
   resource, store it in self.imagingstudy_fhir, then call
   self._transform_fhir once from its tail. -/
def update_fhir_template (st : StudyState) (template : JVal) (tm : TemplateMap) :
    Except PyErr StudyState :=
  match build_resource st.inst st.series_fhir template tm with
  | Except.error e => Except.error e
  | Except.ok resource => transform_fhir { st with imagingstudy_fhir := resource }

/- Study.imagingstudy (aggregator.py lines 334-347): rebuild
   self.series_fhir from self.series, fetch template and map (passed here
   as inputs; _template_from_s3 only reads fixed configuration objects),
   run _update_fhir_template, then call _transform_fhir a second time. -/
def imagingstudy (st : StudyState) (template : JVal) (tm : TemplateMap) :
    Except PyErr StudyState :=
  match series_to_fhir st.series with
  | Except.error e => Except.error e
  | Except.ok sf =>
    match update_fhir_template { st with series_fhir := sf } template tm with
    | Except.error e => Except.error e
    | Except.ok st2 =>
      match transform_fhir st2 with
      | Except.error e => Except.error e
      | Except.ok st3 => Except.ok st3

/- The JSON body of one SQS record, after json.loads: either a single
   record dict with bucket and instances, or a JSON list whose elements
   are such records, or some other shape. -/
inductive Body where
  | dict (bucket : String) (instances : List String)
  | list (records : List (String × List String))
  | other
deriving DecidableEq

/- The body dispatch of sqs_lambda_handler (aggregator.py lines 401-410).
   A dict body is used directly; a list body of length exactly one
   contributes its only element.  For any other shape the source builds
   ValueError without raising it, falls through, and the
   following logging statement then reads the never-assigned local bucket,
   raising UnboundLocalError. -/
def parse_body : Body → Except PyErr (String × List String)
  | Body.dict bucket instances => Except.ok (bucket, instances)
  | Body.list [r] => Except.ok r
  | Body.list _ => Except.error PyErr.unboundLocalError
  | Body.other => Except.error PyErr.unboundLocalError

/- The dict returned at the end of the handler loop (aggregator.py lines
   424-428). -/
structure LambdaResponse where
  statusCode : Int
  headers : List (String × String)
  body : String
deriving DecidableEq

/- Externally observable side effects of one invocation. -/
structure Effects where
  dlq : List DLQMessage
  posts : List JVal

/- The body of the handler loop for one record (aggregator.py lines
   391-428): parse the body, build the Study (its dead letter messages
   stay sent even if a later step raises), build the FHIR resource, POST
   it to HealthLake, and return the response dict. -/
def process_record (env : Env) (template : JVal) (tm : TemplateMap) (body : Body) :
    (Except PyErr LambdaResponse) × Effects :=
  match parse_body body with
  | Except.error e => (Except.error e, { dlq := [], posts := [] })
  | Except.ok (bucket, instances) =>
    match study_new env bucket instances with
    | (Except.error e, dlq) => (Except.error e, { dlq := dlq, posts := [] })
    | (Except.ok st, dlq) =>
      match imagingstudy st template tm with
      | Except.error e => (Except.error e, { dlq := dlq, posts := [] })
      | Except.ok st2 =>
        let r := env.post st2.imagingstudy_fhir
        (Except.ok
          { statusCode := r.1
            headers := [("Content-Type", "text/plain")]
            body := "POST to HealthLake returned  " ++ toString r.1 ++ "," ++ r.2 ++ "\n" },
         { dlq := dlq, posts := [st2.imagingstudy_fhir] })

/- sqs_lambda_handler (aggregator.py lines 386-428).  The loop over
   event[Records] returns the response dict at the end of its first
   iteration, and every other path through the body raises, so control
   never reaches a second record; with no records the loop body never runs
   and the function falls off the end, returning None. -/
def sqs_lambda_handler (env : Env) (template : JVal) (tm : TemplateMap)
    (records : List Body) : (Except PyErr (Option LambdaResponse)) × Effects :=
  match records with
  | [] => (Except.ok none, { dlq := [], posts := [] })
  | b :: _ =>
    match process_record env template tm b with
    | (Except.error e, eff) => (Except.error e, eff)
    | (Except.ok resp, eff) => (Except.ok (some resp), eff)

/- Concrete test fixtures.  dcmOf builds a full tag map holding every tag
   that read_instance extracts (and, deliberately, not the BodyPartExamined
   tag (0018,0015), which read_instance does not extract and which a real
   instance may lack). -/
def dcmOf (study series sop : String) (inum : Int) : TagMap :=
  [(("0020", "000D"), TagVal.vStr study),
   (("0020", "000E"), TagVal.vStr series),
   (("0008", "0018"), TagVal.vStr sop),
   (("0010", "0020"), TagVal.vStr "P1"),
   (("0008", "0020"), TagVal.vStr "20200101"),
   (("0020", "0013"), TagVal.vInt inum),
   (("0020", "0011"), TagVal.vInt 1),
   (("0008", "0060"), TagVal.vStr "CT")]

/- A batch whose first key fails to decode and whose second decodes fine. -/
def env1 : Env :=
  { read := fun _ k =>
      if k = "bad.dcm" then DcmResult.invalidDicom
      else DcmResult.ok (dcmOf "S1" "E1" "I2" 2)
    post := fun _ => (200, "OK") }

/-- C1: the claim says a failed read is recorded as a rejection for that key
and the batch continues, the study uid then coming from the second (first
successful) instance.  The code instead aborts the whole batch: the except
clause of read_tags_from_s3 references the undefined name key, raising
NameError (and dcm would be unbound anyway), and Study.load wraps no try
around the Instance constructor.  On the failing input (first key
undecodable, second fine) assembly returns that NameError and no rejection
message is recorded. -/
theorem claim_C1_eval :
    study_new env1 "bkt" ["bad.dcm", "good.dcm"]
      = (Except.error PyErr.nameError, []) := rfl

/- A batch with study uids S1, S1, S2 in that order: two instances of
   series E1 and a mismatching third instance. -/
def env2 : Env :=
  { read := fun _ k =>
      if k = "c.dcm" then DcmResult.ok (dcmOf "S2" "E9" "I3" 3)
      else if k = "b.dcm" then DcmResult.ok (dcmOf "S1" "E1" "I2" 2)
      else DcmResult.ok (dcmOf "S1" "E1" "I1" 1)
    post := fun _ => (200, "OK") }

/-- C2: for the batch [A(S1), B(S1), C(S2)] the study identity is S1 and A
and B are assembled, as the claim says; but the reject message for C has
instances = list(inst_key), the list of the CHARACTERS of the key
c.dcm, not the single-element key list the claim requires (and the source
sends one such message per mismatching key rather than one batched message
per batch, to_dl_queue being called inside the per-key loop). -/
theorem claim_C2_eval :
    (study_new env2 "bkt" ["a.dcm", "b.dcm", "c.dcm"]).2
        = [{ bucket := "bkt", instances := ["c", ".", "d", "c", "m"] }]
    ∧ Except.map
        (fun st => (st.uid, st.series.map (fun e => (e.1, e.2.map (fun i => i.key)))))
        (study_new env2 "bkt" ["a.dcm", "b.dcm", "c.dcm"]).1
        = Except.ok (TagVal.vStr "S1", [(TagVal.vStr "E1", ["a.dcm", "b.dcm"])]) :=
  ⟨rfl, rfl⟩

/- A representative instance whose tag map lacks (0018,0015), and field
   maps that ask for it. -/
def inst3 : Instance :=
  { bucket := "bkt"
    key := "a.dcm"
    s3_url := "s3://bkt/a.dcm"
    dcm := dcmOf "S1" "E1" "I1" 1
    study_uid := TagVal.vStr "S1"
    series_uid := TagVal.vStr "E1"
    instance_uid := TagVal.vStr "I1"
    patient_id := TagVal.vStr "P1"
    study_date := TagVal.vStr "20200101"
    instance_number := TagVal.vInt 1
    series_number := TagVal.vInt 1
    modality := TagVal.vStr "CT" }

def tm3 : TemplateMap :=
  { template_map :=
      [{ key := "(0020,000D)", location := ["loc1"] },
       { key := "(0018,0015)", location := ["loc2"] }]
    tags_to_fhir := ["(0020,000D)", "(0018,0015)"] }

def tm3b : TemplateMap :=
  { template_map := [{ key := "(0018,0015)", location := ["loc2"] }]
    tags_to_fhir := ["(0018,0015)"] }

def t3 : JVal :=
  JVal.jObj [("loc1", JVal.jStr "default1"), ("loc2", JVal.jStr "default2")]

/-- C3: the claim says a field whose source tag is absent from the
representative instance is skipped, leaving the template location at its
default.  In the code the updates.append call sits outside the
try/except, so after a caught KeyError the loop appends the location
paired with the STALE tag_value of the previous iteration: here loc2,
whose template default is default2, ends up holding the study uid S1 that
was mapped for loc1.  When the very first configured tag is absent,
tag_value was never bound and the reference raises UnboundLocalError,
aborting the mapping entirely. -/
theorem claim_C3_eval :
    build_resource (some inst3) [] t3 tm3b = Except.error PyErr.unboundLocalError
    ∧ build_resource (some inst3) [] t3 tm3
        = Except.ok (JVal.jObj
            [("loc1", JVal.jStr "S1"), ("loc2", JVal.jStr "S1"),
             ("series", JVal.jArr [])]) :=
  ⟨rfl, rfl⟩

def env5 : Env :=
  { read := fun _ _ => DcmResult.invalidDicom, post := fun _ => (0, "") }

def t5 : JVal := JVal.jObj []

def tm5 : TemplateMap := { template_map := [], tags_to_fhir := [] }

/-- C5: the claim says a malformed batch body (neither a record dict nor a
one-element list) is surfaced as an explicit error without crashing.  The
code builds ValueError but never raises it, falls through, and
then crashes on the never-assigned local bucket with UnboundLocalError:
on the failing input (body = empty JSON list) the handler raises
UnboundLocalError, not the constructed ValueError. -/
theorem claim_C5_eval :
    sqs_lambda_handler env5 t5 tm5 [Body.list []]
        = (Except.error PyErr.unboundLocalError, { dlq := [], posts := [] })
    ∧ PyErr.unboundLocalError ≠ PyErr.valueError :=
  ⟨rfl, by decide⟩

def tm4 : TemplateMap :=
  { template_map := [{ key := "(0020,000D)", location := ["loc1"] }]
    tags_to_fhir := ["(0020,000D)"] }

/-- C4 counterexample: on a batch with zero successfully read instances
(here: an empty key list) and the usual non-empty field configuration, the
pipeline does not raise any EmptyStudyError (no such error exists in the
code); the mapping step instead dies with AttributeError when the update
loop dereferences self.instance, which is still None. -/
theorem claim_C4_counterexample :
    process_record env5 t5 tm4 (Body.dict "bkt" [])
        = (Except.error PyErr.attributeError, { dlq := [], posts := [] })
    ∧ PyErr.attributeError ≠ PyErr.emptyStudyError :=
  ⟨rfl, by decide⟩

/-- C6 counterexample: the claim says a template_location whose final
segment does not exist in the template fails via the per-field error path
rather than adding a new key.  In fact the final dict assignment of
set_nested_item creates the missing key: writing at path [a, b] into a
document whose object a exists but has no key b succeeds and adds b. -/
theorem claim_C6_counterexample :
    set_nested_item (JVal.jObj [("a", JVal.jObj [])]) ["a", "b"] (JVal.jStr "x")
      = Except.ok (JVal.jObj [("a", JVal.jObj [("b", JVal.jStr "x")])]) := rfl

/-- C10: the handler loop returns from inside its first iteration (and
every non-returning path raises), so an event with several records
processes exactly the first: the handler result on b :: rest equals the
result on [b] alone, its effects are those of processing b, and its
returned value is the submission result of b. -/
theorem claim_C10 (env : Env) (template : JVal) (tm : TemplateMap)
    (b : Body) (rest : List Body) :
    sqs_lambda_handler env template tm (b :: rest)
        = sqs_lambda_handler env template tm [b]
    ∧ (sqs_lambda_handler env template tm (b :: rest)).2
        = (process_record env template tm b).2
    ∧ (sqs_lambda_handler env template tm (b :: rest)).1
        = Except.map some (process_record env template tm b).1 := by
  refine ⟨rfl, ?_, ?_⟩ <;>
    rcases h : process_record env template tm b with ⟨r, eff⟩ <;>
    cases r <;> simp [sqs_lambda_handler, h, Except.map]

/- Association list facts used by the general theorems. -/
theorem alookup_none_iff {α β : Type} [DecidableEq α] (k : α) (l : List (α × β)) :
    alookup k l = none ↔ ∀ e ∈ l, e.1 ≠ k := by
  induction l with
  | nil => simp [alookup]
  | cons e rest ih =>
    by_cases h : e.1 = k <;> simp [alookup, h, ih]

theorem aset_not_mem {α β : Type} [DecidableEq α] (k : α) (v : β)
    (l : List (α × β)) (h : alookup k l = none) : aset k v l = l ++ [(k, v)] := by
  induction l with
  | nil => rfl
  | cons e rest ih =>
    rw [alookup] at h
    by_cases he : e.1 = k
    · simp [he] at h
    · simp only [he, if_false] at h
      simp [aset, he, ih h]

/-- C6 amended: a template_location with a missing INTERMEDIATE segment
does fail with KeyError (caught by the per-field error path of the update
loop), but a missing FINAL segment under an existing object parent does
not fail: the dict assignment appends the new key at the end of that
object, creating structure the template did not have. -/
theorem claim_C6_amended :
    (∀ (kvs : List (String × JVal)) (k k2 : String) (rest : List String) (v : JVal),
        alookup k kvs = none →
        set_nested_item (JVal.jObj kvs) (k :: k2 :: rest) v
          = Except.error PyErr.keyError)
    ∧ (∀ (kvs : List (String × JVal)) (k : String) (v : JVal),
        alookup k kvs = none →
        set_nested_item (JVal.jObj kvs) [k] v
          = Except.ok (JVal.jObj (kvs ++ [(k, v)]))) := by
  constructor
  · intro kvs k k2 rest v h
    simp [set_nested_item, getItemJ, h]
  · intro kvs k v h
    simp [set_nested_item, aset_not_mem k v kvs h]

/-- C6 witness: concrete runs of both parts of the amended claim. -/
theorem claim_C6_witness :
    set_nested_item (JVal.jObj [("x", JVal.jInt 1)]) ["a", "b"] (JVal.jStr "v")
        = Except.error PyErr.keyError
    ∧ set_nested_item (JVal.jObj [("x", JVal.jInt 1)]) ["a"] (JVal.jStr "v")
        = Except.ok (JVal.jObj [("x", JVal.jInt 1), ("a", JVal.jStr "v")]) :=
  ⟨claim_C6_amended.1 [("x", JVal.jInt 1)] "a" "b" [] (JVal.jStr "v") rfl,
   claim_C6_amended.2 [("x", JVal.jInt 1)] "a" (JVal.jStr "v") rfl⟩

theorem count_sum_spec (frags : List (List (String × JVal) × List JVal)) :
    ∀ (n : Int),
      (∀ p ∈ frags, alookup "instance" p.1 = some (JVal.jArr p.2)) →
      count_sum (frags.map (fun p => JVal.jObj p.1)) n
        = Except.ok (n + Int.ofNat ((frags.map (fun p => p.2.length)).sum)) := by
  induction frags with
  | nil => intro n _; simp [count_sum]
  | cons p rest ih =>
    intro n h
    have hp := h p (by simp)
    have ih2 := ih (n + Int.ofNat p.2.length) (fun q hq => h q (by simp [hq]))
    rw [List.map_cons, count_sum, getItemJ, hp]
    simp only [pyLen]
    rw [ih2]
    congr 1
    simp only [List.map_cons, List.sum_cons, Int.ofNat_eq_natCast]
    push_cast
    ring

/-- C8: when the document has the total-count key, the finalizer
overwrites it with the sum of the per-series instance counts taken over
all series fragments; when the template does not define that key the
document is returned unchanged. -/
theorem claim_C8 :
    (∀ (frags : List (List (String × JVal) × List JVal))
        (kvs : List (String × JVal)) (w : JVal),
        alookup "numberOfInstances" kvs = some w →
        (∀ p ∈ frags, alookup "instance" p.1 = some (JVal.jArr p.2)) →
        transform_resource (frags.map (fun p => JVal.jObj p.1)) (JVal.jObj kvs)
          = Except.ok (JVal.jObj (aset "numberOfInstances"
              (JVal.jInt (Int.ofNat ((frags.map (fun p => p.2.length)).sum))) kvs)))
    ∧ (∀ (sf : List JVal) (kvs : List (String × JVal)),
        alookup "numberOfInstances" kvs = none →
        transform_resource sf (JVal.jObj kvs) = Except.ok (JVal.jObj kvs)) := by
  constructor
  · intro frags kvs w hw h
    rw [transform_resource]
    rw [if_pos (by simp [hw])]
    rw [count_sum_spec frags 0 h]
    simp
  · intro sf kvs h
    rw [transform_resource]
    rw [if_neg (by simp [h])]

/-- C8 witness: two series with 2 and 3 instances give a finalized count
of 5; a document without the count key passes through unchanged. -/
theorem claim_C8_witness :
    transform_resource
        [JVal.jObj [("instance", JVal.jArr [JVal.jInt 0, JVal.jInt 1])],
         JVal.jObj [("instance", JVal.jArr [JVal.jInt 0, JVal.jInt 1, JVal.jInt 2])]]
        (JVal.jObj [("numberOfInstances", JVal.jInt 0)])
      = Except.ok (JVal.jObj [("numberOfInstances", JVal.jInt 5)])
    ∧ transform_resource [] (JVal.jObj [("x", JVal.jInt 9)])
      = Except.ok (JVal.jObj [("x", JVal.jInt 9)]) :=
  ⟨claim_C8.1
      [([("instance", JVal.jArr [JVal.jInt 0, JVal.jInt 1])],
        [JVal.jInt 0, JVal.jInt 1]),
       ([("instance", JVal.jArr [JVal.jInt 0, JVal.jInt 1, JVal.jInt 2])],
        [JVal.jInt 0, JVal.jInt 1, JVal.jInt 2])]
      [("numberOfInstances", JVal.jInt 0)] (JVal.jInt 0) rfl
      (by
        intro p hp
        rcases List.mem_cons.mp hp with h | hp
        · subst h; rfl
        · rcases List.mem_cons.mp hp with h | hp
          · subst h; rfl
          · cases hp),
   claim_C8.2 [] [("x", JVal.jInt 9)] rfl⟩

theorem collect_none (fm : List (String × List String)) (t : String)
    (ts : List String) (tv : Option TagVal) (acc : List (List String × TagVal)) :
    ∃ e, collect_updates none fm (t :: ts) tv acc = Except.error e := by
  cases h : alookup t dicom_attribute_map with
  | none => exact ⟨PyErr.keyError, by simp [collect_updates, h]⟩
  | some tmp => exact ⟨PyErr.attributeError, by simp [collect_updates, h, tryReadTag]⟩

/-- C4 amended: a batch with zero successfully read instances (an empty
key list, or every read raising) together with the nonempty configured
tag list makes the pipeline raise an exception before any POST: the
result of processing the record is an error (AttributeError from the
absent representative instance, or the read error itself) and the list of
documents posted to HealthLake is empty.  No EmptyStudyError exists in
the code to be raised. -/
theorem claim_C4_amended (env : Env) (template : JVal) (tm : TemplateMap)
    (bucket : String) (keys : List String)
    (hfail : ∀ k ∈ keys, ∃ e, read_instance env bucket k = Except.error e)
    (htags : tm.tags_to_fhir ≠ []) :
    (∃ e, (process_record env template tm (Body.dict bucket keys)).1
        = Except.error e)
    ∧ (process_record env template tm (Body.dict bucket keys)).2.posts = [] := by
  cases keys with
  | nil =>
    cases hts : tm.tags_to_fhir with
    | nil => exact absurd hts htags
    | cons t ts =>
      obtain ⟨e, hc⟩ :=
        collect_none (build_fhir_map tm.template_map) t ts none []
      have hb : build_resource none [] template tm = Except.error e := by
        rw [build_resource, hts, hc]
      have him : imagingstudy (study_init bucket []) template tm
          = Except.error e := by
        simp [imagingstudy, update_fhir_template, series_to_fhir, mapExcept,
          study_init, hb]
      constructor
      · exact ⟨e, by simp [process_record, parse_body, study_new, load_loop, him]⟩
      · simp [process_record, parse_body, study_new, load_loop, him]
  | cons k ks =>
    obtain ⟨e, he⟩ := hfail k (by simp)
    constructor
    · exact ⟨e, by simp [process_record, parse_body, study_new, load_loop, study_init, he]⟩
    · simp [process_record, parse_body, study_new, load_loop, study_init, he]

/-- C4 witness: a one-key batch whose only read fails, under a nonempty
tag configuration, yields an error and posts nothing. -/
theorem claim_C4_witness :
    (∃ e, (process_record env5 t5 tm4 (Body.dict "bkt" ["x.dcm"])).1
        = Except.error e)
    ∧ (process_record env5 t5 tm4 (Body.dict "bkt" ["x.dcm"])).2.posts = [] :=
  claim_C4_amended env5 t5 tm4 "bkt" ["x.dcm"]
    (fun _ _ => ⟨PyErr.nameError, rfl⟩) (by decide)

/-- C9: field mapping is idempotent.  imagingstudy only reads the series
dict and the representative instance, which it never changes, and it
overwrites series_fhir and imagingstudy_fhir with values depending only on
those and on the template and field-map inputs; a second run on the state
produced by a first successful run therefore succeeds and returns the very
same state, hence a byte-identical serialised document. -/
theorem claim_C9 (st : StudyState) (template : JVal) (tm : TemplateMap)
    (st2 : StudyState) (h : imagingstudy st template tm = Except.ok st2) :
    imagingstudy st2 template tm = Except.ok st2 := by
  simp only [imagingstudy, update_fhir_template, transform_fhir] at h
  cases hsf : series_to_fhir st.series with
  | error e => rw [hsf] at h; exact Except.noConfusion h
  | ok sf =>
  rw [hsf] at h
  try dsimp only at h
  cases hbr : build_resource st.inst sf template tm with
  | error e => rw [hbr] at h; exact Except.noConfusion h
  | ok res =>
  rw [hbr] at h
  try dsimp only at h
  cases h1 : transform_resource sf res with
  | error e => rw [h1] at h; exact Except.noConfusion h
  | ok r1 =>
  rw [h1] at h
  try dsimp only at h
  cases h2 : transform_resource sf r1 with
  | error e => rw [h2] at h; exact Except.noConfusion h
  | ok r2 =>
  rw [h2] at h
  injection h with h3
  subst h3
  simp only [imagingstudy, update_fhir_template, transform_fhir]
  try dsimp only
  rw [hsf]
  try dsimp only
  rw [hbr]
  try dsimp only
  rw [h1]
  try dsimp only
  rw [h2]

/- A small assembled study on which the full mapping succeeds. -/
def st9 : StudyState :=
  { bucket := "bkt"
    instance_keys := ["a.dcm"]
    uid := TagVal.vStr "S1"
    inst := some inst3
    series := [(TagVal.vStr "E1", [inst3])]
    series_fhir := []
    imagingstudy_fhir := JVal.jObj [] }

def t9 : JVal :=
  JVal.jObj [("numberOfInstances", JVal.jInt 0), ("loc1", JVal.jStr "d")]

def tm9 : TemplateMap :=
  { template_map := [{ key := "(0020,000D)", location := ["loc1"] }]
    tags_to_fhir := ["(0020,000D)"] }

/- The state after one successful mapping run on st9. -/
def st9r : StudyState :=
  match imagingstudy st9 t9 tm9 with
  | Except.ok s => s
  | Except.error _ => st9

/-- C9 witness: on the concrete study st9 the first mapping run succeeds
with result st9r, and the second run maps st9r to itself. -/
theorem claim_C9_witness :
    imagingstudy st9 t9 tm9 = Except.ok st9r
    ∧ imagingstudy st9r t9 tm9 = Except.ok st9r :=
  ⟨rfl, claim_C9 st9 t9 tm9 st9r rfl⟩

/- Facts about the map-update used by add_instance when the series key
   already exists. -/
theorem upd_map_id (k : TagVal) (i : Instance) (s : SeriesMap)
    (h : ∀ e ∈ s, e.1 ≠ k) :
    s.map (fun e => if e.1 = k then (e.1, e.2 ++ [i]) else e) = s := by
  induction s with
  | nil => rfl
  | cons e rest ih =>
    rw [List.map_cons, if_neg (h e (by simp)), ih (fun e2 he2 => h e2 (by simp [he2]))]

theorem alookup_none_upd (k u : TagVal) (i : Instance) (s : SeriesMap)
    (h : alookup u s = none) :
    alookup u (s.map (fun e => if e.1 = k then (e.1, e.2 ++ [i]) else e)) = none := by
  rw [alookup_none_iff] at h ⊢
  intro e he
  rcases List.mem_map.mp he with ⟨e2, he2, rfl⟩
  by_cases h2 : e2.1 = k
  · rw [if_pos h2]; exact h e2 he2
  · rw [if_neg h2]; exact h e2 he2

theorem alookup_append_none {α β : Type} [DecidableEq α] (k : α)
    (s t : List (α × β)) (h : alookup k s = none) :
    alookup k (s ++ t) = alookup k t := by
  induction s with
  | nil => rfl
  | cons e rest ih =>
    rw [alookup] at h
    by_cases he : e.1 = k
    · simp [he] at h
    · rw [if_neg he] at h
      rw [List.cons_append, alookup, if_neg he]
      exact ih h

/- Behaviour of add_instance on a head entry whose key matches or not. -/
theorem add_instance_cons_hit (u : TagVal) (l : List Instance) (acc : SeriesMap)
    (j : Instance) (hj : j.series_uid = u) (h : ∀ e ∈ acc, e.1 ≠ u) :
    add_instance ((u, l) :: acc) j = (u, l ++ [j]) :: acc := by
  subst hj
  rw [add_instance, alookup, if_pos rfl]
  dsimp only
  rw [List.map_cons, if_pos rfl, upd_map_id _ _ _ h]

theorem add_instance_cons_miss (u : TagVal) (l : List Instance) (acc : SeriesMap)
    (j : Instance) (hj : ¬j.series_uid = u) :
    add_instance ((u, l) :: acc) j = (u, l) :: add_instance acc j := by
  have hj2 : ¬(u = j.series_uid) := fun hh => hj hh.symm
  rw [add_instance, add_instance, alookup, if_neg hj2]
  cases hacc : alookup j.series_uid acc with
  | some l2 =>
    dsimp only
    rw [List.map_cons, if_neg hj2]
  | none =>
    dsimp only
    rw [List.cons_append]

/- The central accumulator lemma: folding add_instance over the remaining
   instances distributes over a head entry whose key is not in the tail
   accumulator, collecting exactly the matching instances in arrival order
   and leaving the rest to be grouped after it. -/
theorem foldl_add_cons (rest : List Instance) :
    ∀ (acc : SeriesMap) (u : TagVal) (l : List Instance),
      alookup u acc = none →
      List.foldl add_instance ((u, l) :: acc) rest
        = (u, l ++ rest.filter (fun j => decide (j.series_uid = u))) ::
            List.foldl add_instance acc
              (rest.filter (fun j => decide (¬j.series_uid = u))) := by
  induction rest with
  | nil => intro acc u l _; simp
  | cons j rest ih =>
    intro acc u l h
    rw [List.foldl_cons]
    by_cases hj : j.series_uid = u
    · rw [add_instance_cons_hit u l acc j hj
        (by rw [alookup_none_iff] at h; exact h)]
      rw [ih acc u (l ++ [j]) h]
      rw [List.filter_cons, List.filter_cons]
      simp [hj, List.append_assoc]
    · rw [add_instance_cons_miss u l acc j hj]
      have hnone2 : alookup u (add_instance acc j) = none := by
        rw [add_instance]
        cases hacc : alookup j.series_uid acc with
        | some l2 =>
          dsimp only
          exact alookup_none_upd _ _ _ _ h
        | none =>
          dsimp only
          rw [alookup_append_none _ _ _ h, alookup, if_neg hj]
          rfl
      rw [ih (add_instance acc j) u l hnone2]
      rw [List.filter_cons, List.filter_cons]
      simp [hj, List.foldl_cons]

/- Modelled from the spec (ordering guarantees): series appear in
   first-seen arrival order and each series carries its instances in
   arrival order.  This is the reference grouping the assembled series
   dict is compared against. -/
def spec_grouping : List Instance → SeriesMap
  | [] => []
  | i :: rest =>
    (i.series_uid, i :: rest.filter (fun j => decide (j.series_uid = i.series_uid))) ::
      spec_grouping (rest.filter (fun j => decide (¬j.series_uid = i.series_uid)))
termination_by l => l.length
decreasing_by
  simp only [List.length_cons]
  exact Nat.lt_succ_of_le (List.length_filter_le _ _)

theorem build_series_eq (insts : List Instance) :
    List.foldl add_instance [] insts = spec_grouping insts := by
  induction insts using spec_grouping.induct with
  | case1 => rw [spec_grouping]; rfl
  | case2 i rest ih =>
    rw [List.foldl_cons]
    have h0 : add_instance [] i = [(i.series_uid, [i])] := rfl
    rw [h0, foldl_add_cons rest [] i.series_uid [i] rfl, spec_grouping, ih]
    simp

theorem spec_grouping_keys_mem (insts : List Instance) :
    ∀ e ∈ spec_grouping insts, ∃ j ∈ insts, j.series_uid = e.1 := by
  induction insts using spec_grouping.induct with
  | case1 => intro e he; rw [spec_grouping] at he; cases he
  | case2 i rest ih =>
    intro e he
    rw [spec_grouping] at he
    rcases List.mem_cons.mp he with h | h
    · subst h; exact ⟨i, by simp, rfl⟩
    · rcases ih e h with ⟨j, hj, hju⟩
      exact ⟨j, List.mem_cons_of_mem _ (List.mem_of_mem_filter hj), hju⟩

theorem spec_grouping_nodup (insts : List Instance) :
    ((spec_grouping insts).map Prod.fst).Nodup := by
  induction insts using spec_grouping.induct with
  | case1 => rw [spec_grouping]; simp
  | case2 i rest ih =>
    rw [spec_grouping, List.map_cons, List.nodup_cons]
    refine ⟨?_, ih⟩
    intro hmem
    rcases List.mem_map.mp hmem with ⟨e, he, heq⟩
    rcases spec_grouping_keys_mem _ e he with ⟨j, hj, hju⟩
    have hfil := List.of_mem_filter hj
    simp only [decide_eq_true_eq] at hfil
    exact hfil (by rw [hju, heq])

theorem mapExcept_congr {α β : Type} (f g : α → Except PyErr β) (l : List α)
    (h : ∀ a ∈ l, f a = g a) : mapExcept f l = mapExcept g l := by
  induction l with
  | nil => rfl
  | cons a l ih =>
    rw [mapExcept, mapExcept, h a (by simp), ih (fun a2 ha2 => h a2 (by simp [ha2]))]

/- With pairwise distinct series keys, iterating the keys and looking each
   up is the same as rendering the entries directly. -/
theorem series_to_fhir_entries (s : SeriesMap)
    (hnd : (s.map Prod.fst).Nodup) :
    series_to_fhir s = mapExcept (fun e => series_entry_to_FHIR e.2) s := by
  induction s with
  | nil => rfl
  | cons e t ih =>
    rw [List.map_cons, List.nodup_cons] at hnd
    have h1 : series_to_FHIR (e :: t) e.1 = series_entry_to_FHIR e.2 := by
      rw [series_to_FHIR, alookup, if_pos rfl]
    have h2 : mapExcept (series_to_FHIR (e :: t)) (List.map Prod.fst t)
        = mapExcept (fun x => series_entry_to_FHIR x.2) t := by
      have hc : ∀ k ∈ List.map Prod.fst t,
          series_to_FHIR (e :: t) k = series_to_FHIR t k := by
        intro k hk
        rw [series_to_FHIR, series_to_FHIR, alookup,
          if_neg (fun hh : e.1 = k => hnd.1 (hh ▸ hk))]
      rw [mapExcept_congr _ _ _ hc]
      have hx := ih hnd.2
      rw [series_to_fhir] at hx
      exact hx
    rw [series_to_fhir, List.map_cons, mapExcept, h1, h2, mapExcept]

/- Study.load over a batch whose every key reads successfully with the
   already-established study uid: no rejection is emitted and the series
   dict is the fold of add_instance over the instances in key order. -/
theorem load_loop_consistent (env : Env) (f : String → Instance) (u : TagVal)
    (hu : ¬u = TagVal.vStr "") :
    ∀ (keys : List String) (st : StudyState) (msgs : List DLQMessage),
      st.uid = u →
      st.inst.isSome →
      (∀ k ∈ keys, read_instance env st.bucket k = Except.ok (f k)) →
      (∀ k ∈ keys, (f k).study_uid = u) →
      load_loop env keys st msgs
        = (Except.ok { st with series := List.foldl add_instance st.series (keys.map f) },
           msgs) := by
  intro keys
  induction keys with
  | nil =>
    intro st msgs _ _ _ _
    simp [load_loop]
  | cons k ks ih =>
    intro st msgs h1 h2 h3 h4
    obtain ⟨i0, hi0⟩ := Option.isSome_iff_exists.mp h2
    have hcond1 : ¬(st.uid = TagVal.vStr "") := by rw [h1]; exact hu
    have hcond2 : st.uid = (f k).study_uid := by rw [h1, h4 k (by simp)]
    rw [load_loop, h3 k (by simp)]
    dsimp only
    rw [if_neg hcond1, if_pos hcond2]
    dsimp only
    have hcond3 : st.inst.isNone = false := by rw [hi0]; rfl
    rw [hcond3, if_neg Bool.false_ne_true]
    rw [ih { st with series := add_instance st.series (f k) } msgs h1 h2
      (fun k2 hk2 => h3 k2 (by simp [hk2]))
      (fun k2 hk2 => h4 k2 (by simp [hk2]))]
    rw [List.map_cons, List.foldl_cons]

/-- C7: for a consistent batch (every key reads successfully and every
instance carries the established study uid), assembly emits no rejection,
and the series fragments produced by _series_to_fhir for the output
document are exactly the rendering of the first-seen grouping of the
instances taken in input key order: series appear in first-seen arrival
order of their seriesUIDs and each fragment lists its instances in
arrival order of their keys, however the series interleave. -/
theorem claim_C7 (env : Env) (bucket : String) (keys : List String)
    (f : String → Instance) (u : TagVal)
    (hread : ∀ k ∈ keys, read_instance env bucket k = Except.ok (f k))
    (huid : ∀ k ∈ keys, (f k).study_uid = u)
    (hu : ¬u = TagVal.vStr "") :
    (study_new env bucket keys).2 = []
    ∧ ∃ st, (study_new env bucket keys).1 = Except.ok st
        ∧ series_to_fhir st.series
            = mapExcept (fun e => series_entry_to_FHIR e.2)
                (spec_grouping (keys.map f)) := by
  cases keys with
  | nil =>
    refine ⟨rfl, study_init bucket [], rfl, ?_⟩
    rw [List.map_nil, spec_grouping]
    rfl
  | cons k ks =>
    have hfirst : study_new env bucket (k :: ks)
        = (Except.ok
            { bucket := bucket
              instance_keys := k :: ks
              uid := (f k).study_uid
              inst := some (f k)
              series := List.foldl add_instance [] (List.map f (k :: ks))
              series_fhir := []
              imagingstudy_fhir := JVal.jObj [] }, []) := by
      rw [study_new, List.map_cons, List.foldl_cons]
      rw [load_loop]
      rw [show read_instance env (study_init bucket (k :: ks)).bucket k
          = Except.ok (f k) from hread k (by simp)]
      dsimp only [study_init]
      rw [if_pos rfl]
      dsimp only
      rw [if_pos (show ((none : Option Instance).isNone = true) from rfl)]
      rw [load_loop_consistent env f u hu ks
        { bucket := bucket
          instance_keys := k :: ks
          uid := (f k).study_uid
          inst := some (f k)
          series := add_instance [] (f k)
          series_fhir := []
          imagingstudy_fhir := JVal.jObj [] } []
        (huid k (by simp)) rfl
        (fun k2 hk2 => hread k2 (by simp [hk2]))
        (fun k2 hk2 => huid k2 (by simp [hk2]))]
    refine ⟨?_, ?_⟩
    · rw [hfirst]
    · refine ⟨_, by rw [hfirst], ?_⟩
      dsimp only
      rw [build_series_eq]
      exact series_to_fhir_entries _ (spec_grouping_nodup _)

/- A three-key batch with interleaved series E1, E2, E1, all in study S. -/
def env7 : Env :=
  { read := fun _ k =>
      if k = "k1" then DcmResult.ok (dcmOf "S" "E1" "I1" 1)
      else if k = "k2" then DcmResult.ok (dcmOf "S" "E2" "I2" 2)
      else DcmResult.ok (dcmOf "S" "E1" "I3" 3)
    post := fun _ => (200, "OK") }

def f7 (k : String) : Instance :=
  { bucket := "b"
    key := k
    s3_url := "s3://b/" ++ k
    dcm :=
      if k = "k1" then dcmOf "S" "E1" "I1" 1
      else if k = "k2" then dcmOf "S" "E2" "I2" 2
      else dcmOf "S" "E1" "I3" 3
    study_uid := TagVal.vStr "S"
    series_uid :=
      if k = "k2" then TagVal.vStr "E2" else TagVal.vStr "E1"
    instance_uid :=
      if k = "k1" then TagVal.vStr "I1"
      else if k = "k2" then TagVal.vStr "I2" else TagVal.vStr "I3"
    patient_id := TagVal.vStr "P1"
    study_date := TagVal.vStr "20200101"
    instance_number :=
      if k = "k1" then TagVal.vInt 1
      else if k = "k2" then TagVal.vInt 2 else TagVal.vInt 3
    series_number := TagVal.vInt 1
    modality := TagVal.vStr "CT" }

/-- C7 witness: the interleaved batch k1(E1), k2(E2), k3(E1) assembles with
no rejection and renders in first-seen series order with instances in
arrival order. -/
theorem claim_C7_witness :
    (study_new env7 "b" ["k1", "k2", "k3"]).2 = []
    ∧ ∃ st, (study_new env7 "b" ["k1", "k2", "k3"]).1 = Except.ok st
        ∧ series_to_fhir st.series
            = mapExcept (fun e => series_entry_to_FHIR e.2)
                (spec_grouping (["k1", "k2", "k3"].map f7)) :=
  claim_C7 env7 "b" ["k1", "k2", "k3"] f7 (TagVal.vStr "S")
    (by decide) (by decide) (by decide)
